import Mathlib

/-!
Verification development for the cv-geany-agent repository.

The embedding covers:
* `src/models.py`      — the `Portfolio` record and its nested entities,
  together with a model of pydantic's `model_dump_json` serialization and
  schema validation (`Json`, `Portfolio.toJson`, `Portfolio.fromJson`);
* `src/extract_lines.py` — `extract_links_from_pdf`;
* `src/pdfextractor.py`  — treated as an oracle (`textExtract`);
* `src/resumeportfolioagent.py` — the three LangGraph nodes, the compiled
  graph (whose edges are unconditional), and `process_resume`;
* `src/portfolio_generator.py` — `__init__`'s repo parsing,
  `_get_template_zip`, `_find_root_directory` and `generate_zip`.

External collaborators (the PDF engine, the LLM, the network) are modelled
as explicit oracle values so that every pipeline run is a pure function of
the oracles and the input.
-/

set_option autoImplicit false

namespace CVGeany

/-! ## Generic list helpers (Python string/Counter semantics) -/

/-- Python `s.split('/')` on a string viewed as a list of characters.
`splitSlash [] = [[]]`, matching `"".split('/') == ['']`. -/
def splitSlash : List Char → List (List Char)
  | [] => [[]]
  | c :: cs =>
    let r := splitSlash cs
    if c = '/' then [] :: r else (c :: r.headD []) :: r.tail

/-- `splitSlash` never returns the empty list. -/
theorem splitSlash_ne_nil (l : List Char) : splitSlash l ≠ [] := by
  cases l with
  | nil => simp [splitSlash]
  | cons c cs =>
    simp only [splitSlash]
    by_cases hc : c = '/' <;> simp [hc]

/-- The length of `splitSlash l` is one more than the number of `'/'`
characters in `l` (Python: `len(s.split('/')) == s.count('/') + 1`). -/
theorem splitSlash_length (l : List Char) :
    (splitSlash l).length = l.count '/' + 1 := by
  induction l with
  | nil => simp [splitSlash]
  | cons c cs ih =>
    have hne := splitSlash_ne_nil cs
    have hlen : (splitSlash cs).length ≥ 1 := by
      cases h : splitSlash cs with
      | nil => exact absurd h hne
      | cons a b => simp
    simp only [splitSlash]
    by_cases hc : c = '/'
    · subst hc
      simp [List.count_cons, ih]
    · have hcount : (c :: cs).count '/' = cs.count '/' := by
        simp [List.count_cons, hc, Ne.symm hc]
      rw [if_neg hc, List.length_cons, List.length_tail, hcount, ih]
      omega

/-- Python substring test `sub in hay` on character lists. -/
def containsSub (sub hay : List Char) : Bool :=
  hay.tails.any (fun t => sub.isPrefixOf t)

/-- First element of `l` whose `c`-value is maximal; ties go to the
earliest element.  This is the semantics of
`collections.Counter(l).most_common(1)[0][0]`: `Counter` keys are stored in
first-insertion order and `most_common`'s ordering is stable, so the winner
is the first-seen value with the greatest multiplicity. -/
def firstMaxBy {α : Type} (c : α → Nat) : List α → Option α
  | [] => none
  | x :: xs =>
    match firstMaxBy c xs with
    | none => some x
    | some y => if c y > c x then some y else some x

theorem firstMaxBy_eq_none {α : Type} (c : α → Nat) (l : List α) :
    firstMaxBy c l = none ↔ l = [] := by
  cases l with
  | nil => simp [firstMaxBy]
  | cons x xs =>
    simp only [firstMaxBy]
    cases firstMaxBy c xs with
    | none => simp
    | some y => by_cases h : c y > c x <;> simp [h]

theorem firstMaxBy_mem {α : Type} (c : α → Nat) (l : List α) :
    ∀ k, firstMaxBy c l = some k → k ∈ l := by
  induction l with
  | nil => intro k h; simp [firstMaxBy] at h
  | cons x xs ih =>
    intro k h
    simp only [firstMaxBy] at h
    cases hx : firstMaxBy c xs with
    | none => rw [hx] at h; simp at h; simp [h]
    | some y =>
      rw [hx] at h
      have h' : (if c y > c x then some y else some x) = some k := h
      by_cases hc : c y > c x
      · rw [if_pos hc] at h'
        simp at h'; subst h'
        exact List.mem_cons_of_mem _ (ih y hx)
      · rw [if_neg hc] at h'
        simp at h'; simp [h']

theorem firstMaxBy_maximal {α : Type} (c : α → Nat) (l : List α) :
    ∀ k, firstMaxBy c l = some k → ∀ y ∈ l, c y ≤ c k := by
  induction l with
  | nil => intro k h; simp [firstMaxBy] at h
  | cons x xs ih =>
    intro k h
    simp only [firstMaxBy] at h
    cases hx : firstMaxBy c xs with
    | none =>
      rw [hx] at h; simp at h; subst h
      have hnil : xs = [] := (firstMaxBy_eq_none c xs).mp hx
      subst hnil; simp
    | some y =>
      rw [hx] at h
      have h' : (if c y > c x then some y else some x) = some k := h
      by_cases hc : c y > c x
      · rw [if_pos hc] at h'; simp at h'; subst h'
        intro z hz
        rcases List.mem_cons.mp hz with hz | hz
        · subst hz; omega
        · exact ih y hx z hz
      · rw [if_neg hc] at h'; simp at h'; subst h'
        intro z hz
        rcases List.mem_cons.mp hz with hz | hz
        · subst hz; exact le_refl _
        · exact le_trans (ih y hx z hz) (by omega)

/-- The winner of `firstMaxBy` occurs in the list with only strictly
smaller values before it (first-seen tie-breaking). -/
theorem firstMaxBy_first_seen {α : Type} (c : α → Nat) (l : List α) :
    ∀ k, firstMaxBy c l = some k →
    ∃ pre post, l = pre ++ k :: post ∧ ∀ y ∈ pre, c y < c k := by
  induction l with
  | nil => intro k h; simp [firstMaxBy] at h
  | cons x xs ih =>
    intro k h
    simp only [firstMaxBy] at h
    cases hx : firstMaxBy c xs with
    | none =>
      rw [hx] at h; simp at h; subst h
      exact ⟨[], xs, rfl, by simp⟩
    | some y =>
      rw [hx] at h
      have h' : (if c y > c x then some y else some x) = some k := h
      by_cases hc : c y > c x
      · rw [if_pos hc] at h'; simp at h'; subst h'
        obtain ⟨pre, post, heq, hpre⟩ := ih y hx
        refine ⟨x :: pre, post, by simp [heq], ?_⟩
        intro z hz
        rcases List.mem_cons.mp hz with hz | hz
        · subst hz; omega
        · exact hpre z hz
      · rw [if_neg hc] at h'; simp at h'; subst h'
        exact ⟨[], xs, rfl, by simp⟩

/-! ## JSON values and the Portfolio schema (`src/models.py`)

`Json` is the abstract value produced by pydantic's `model_dump` /
consumed by schema validation; only the constructors the Portfolio schema
uses are needed.  `model_dump_json` renders such a value as canonical
(declaration-field-order, indented) text; the external JSON parser is the
inverse of that rendering, so serialized entries are carried as `Json`
values in the archive model. -/

inductive Json where
  | null : Json
  | str : String → Json
  | arr : List Json → Json
  | obj : List (String × Json) → Json
  deriving Repr, BEq

/-- Element-wise validation of a list (pydantic `List[...]` fields):
succeeds only if every element validates. -/
def optMapM {α β : Type} (f : α → Option β) : List α → Option (List β)
  | [] => some []
  | x :: xs =>
    match f x, optMapM f xs with
    | some y, some ys => some (y :: ys)
    | _, _ => none

theorem optMapM_map_roundtrip {α β : Type} (f : α → Option β) (g : β → α)
    (hfg : ∀ b, f (g b) = some b) (l : List β) :
    optMapM f (l.map g) = some l := by
  induction l with
  | nil => rfl
  | cons x xs ih => simp [optMapM, hfg, ih]

/-- Field lookup in a JSON object (pydantic reads named fields). -/
def Json.field (j : Json) (k : String) : Option Json :=
  match j with
  | .obj fs => fs.lookup k
  | _ => none

def Json.getStr : Json → Option String
  | .str s => some s
  | _ => none

/-- An optional-string field: `null` or a string (pydantic `Optional[str]`). -/
def Json.getOptStr : Json → Option (Option String)
  | .null => some none
  | .str s => some (some s)
  | _ => none

def Json.getStrList : Json → Option (List String)
  | .arr xs => optMapM Json.getStr xs
  | _ => none

/-- An optional list of strings: `null` or an array of strings
(pydantic `Optional[List[str]]`). -/
def Json.getOptStrList : Json → Option (Option (List String))
  | .null => some none
  | .arr xs => (optMapM Json.getStr xs).map some
  | _ => none

/-- `class WorkExperience(BaseModel)` of `src/models.py`. -/
structure WorkExperience where
  title : String
  company : String
  duration : String
  description : String
  deriving Repr, DecidableEq

/-- `class Project(BaseModel)` of `src/models.py`. -/
structure Project where
  title : String
  desc : String
  image : String
  livelink : Option String
  repolink : Option String
  deriving Repr, DecidableEq

/-- `class SkillCategory(BaseModel)` of `src/models.py`. -/
structure SkillCategory where
  category : String
  skills : List String
  deriving Repr, DecidableEq

/-- `class SocialLink(BaseModel)` of `src/models.py`. -/
structure SocialLink where
  url : String
  name : String
  deriving Repr, DecidableEq

/-- `class Portfolio(BaseModel)` of `src/models.py`; `pdfLinks` is the only
optional field (`Optional[List[str]] = None`). -/
structure Portfolio where
  name : String
  mail : String
  resumeLink : String
  aboutme : String
  workExperience : List WorkExperience
  projects : List Project
  skillsData : List SkillCategory
  socials : List SocialLink
  seoKeywords : List String
  pdfLinks : Option (List String)
  deriving Repr, DecidableEq

def optStrJson : Option String → Json
  | none => .null
  | some s => .str s

def WorkExperience.toJson (w : WorkExperience) : Json :=
  .obj [("title", .str w.title), ("company", .str w.company),
        ("duration", .str w.duration), ("description", .str w.description)]

def Project.toJson (p : Project) : Json :=
  .obj [("title", .str p.title), ("desc", .str p.desc),
        ("image", .str p.image), ("livelink", optStrJson p.livelink),
        ("repolink", optStrJson p.repolink)]

def SkillCategory.toJson (s : SkillCategory) : Json :=
  .obj [("category", .str s.category),
        ("skills", .arr (s.skills.map Json.str))]

def SocialLink.toJson (s : SocialLink) : Json :=
  .obj [("url", .str s.url), ("name", .str s.name)]

/-- `portfolio_data.model_dump_json(...)`: the portfolio rendered as a JSON
object in declaration field order. -/
def Portfolio.toJson (p : Portfolio) : Json :=
  .obj [("name", .str p.name), ("mail", .str p.mail),
        ("resumeLink", .str p.resumeLink), ("aboutme", .str p.aboutme),
        ("workExperience", .arr (p.workExperience.map WorkExperience.toJson)),
        ("projects", .arr (p.projects.map Project.toJson)),
        ("skillsData", .arr (p.skillsData.map SkillCategory.toJson)),
        ("socials", .arr (p.socials.map SocialLink.toJson)),
        ("seoKeywords", .arr (p.seoKeywords.map Json.str)),
        ("pdfLinks", match p.pdfLinks with
                     | none => Json.null
                     | some l => Json.arr (l.map Json.str))]

def WorkExperience.fromJson (j : Json) : Option WorkExperience := do
  let t ← (j.field "title").bind Json.getStr
  let c ← (j.field "company").bind Json.getStr
  let d ← (j.field "duration").bind Json.getStr
  let de ← (j.field "description").bind Json.getStr
  pure ⟨t, c, d, de⟩

def Project.fromJson (j : Json) : Option Project := do
  let t ← (j.field "title").bind Json.getStr
  let d ← (j.field "desc").bind Json.getStr
  let i ← (j.field "image").bind Json.getStr
  let l ← (j.field "livelink").bind Json.getOptStr
  let r ← (j.field "repolink").bind Json.getOptStr
  pure ⟨t, d, i, l, r⟩

def SkillCategory.fromJson (j : Json) : Option SkillCategory := do
  let c ← (j.field "category").bind Json.getStr
  let s ← (j.field "skills").bind Json.getStrList
  pure ⟨c, s⟩

def SocialLink.fromJson (j : Json) : Option SocialLink := do
  let u ← (j.field "url").bind Json.getStr
  let n ← (j.field "name").bind Json.getStr
  pure ⟨u, n⟩

/-- Pydantic validation of a `Portfolio` JSON document
(`Portfolio.model_validate` on the parsed value). -/
def Portfolio.fromJson (j : Json) : Option Portfolio := do
  let n ← (j.field "name").bind Json.getStr
  let m ← (j.field "mail").bind Json.getStr
  let r ← (j.field "resumeLink").bind Json.getStr
  let a ← (j.field "aboutme").bind Json.getStr
  let w ← match j.field "workExperience" with
          | some (.arr xs) => optMapM WorkExperience.fromJson xs
          | _ => none
  let pr ← match j.field "projects" with
           | some (.arr xs) => optMapM Project.fromJson xs
           | _ => none
  let sk ← match j.field "skillsData" with
           | some (.arr xs) => optMapM SkillCategory.fromJson xs
           | _ => none
  let so ← match j.field "socials" with
           | some (.arr xs) => optMapM SocialLink.fromJson xs
           | _ => none
  let seo ← (j.field "seoKeywords").bind Json.getStrList
  let pl ← (j.field "pdfLinks").bind Json.getOptStrList
  pure ⟨n, m, r, a, w, pr, sk, so, seo, pl⟩

theorem workExperience_roundtrip (w : WorkExperience) :
    WorkExperience.fromJson w.toJson = some w := by
  cases w; rfl

theorem project_roundtrip (p : Project) :
    Project.fromJson p.toJson = some p := by
  cases p with
  | mk t d i l r =>
    cases l <;> cases r <;> rfl

theorem str_mapM_roundtrip (l : List String) :
    optMapM Json.getStr (l.map Json.str) = some l :=
  optMapM_map_roundtrip Json.getStr Json.str (fun _ => rfl) l

theorem skillCategory_roundtrip (s : SkillCategory) :
    SkillCategory.fromJson s.toJson = some s := by
  cases s with
  | mk c sk =>
    simp [SkillCategory.toJson, SkillCategory.fromJson, Json.field,
          List.lookup, Json.getStr, Json.getStrList, str_mapM_roundtrip]

theorem socialLink_roundtrip (s : SocialLink) :
    SocialLink.fromJson s.toJson = some s := by
  cases s; rfl

theorem we_mapM_roundtrip (l : List WorkExperience) :
    optMapM WorkExperience.fromJson (l.map WorkExperience.toJson) = some l :=
  optMapM_map_roundtrip _ _ workExperience_roundtrip l

theorem project_mapM_roundtrip (l : List Project) :
    optMapM Project.fromJson (l.map Project.toJson) = some l :=
  optMapM_map_roundtrip _ _ project_roundtrip l

theorem skill_mapM_roundtrip (l : List SkillCategory) :
    optMapM SkillCategory.fromJson (l.map SkillCategory.toJson) = some l :=
  optMapM_map_roundtrip _ _ skillCategory_roundtrip l

theorem social_mapM_roundtrip (l : List SocialLink) :
    optMapM SocialLink.fromJson (l.map SocialLink.toJson) = some l :=
  optMapM_map_roundtrip _ _ socialLink_roundtrip l

/-- Serialize-then-validate is the identity on `Portfolio` records. -/
theorem portfolio_roundtrip (p : Portfolio) :
    Portfolio.fromJson p.toJson = some p := by
  cases p with
  | mk n m r a w pr sk so seo pl =>
    cases pl <;>
      simp [Portfolio.toJson, Portfolio.fromJson, Json.field, List.lookup,
            Json.getStr, Json.getStrList, Json.getOptStrList,
            str_mapM_roundtrip, we_mapM_roundtrip, project_mapM_roundtrip,
            skill_mapM_roundtrip, social_mapM_roundtrip]

/-! ## Link extraction (`src/extract_lines.py`)

`fitz.open` and per-page `get_links()` are the document-engine
collaborators; a `PdfDoc` records what they would return.  A page whose
`get_links()` call raises is a `.error` page; a document whose `fitz.open`
raises is `OpenResult.fail`. -/

/-- One entry of a page's `get_links()` list; `uri = none` models an
annotation dict without a `"uri"` key. -/
structure PdfAnnot where
  uri : Option String
  deriving Repr, DecidableEq

/-- The outcome of `doc[page_num].get_links()` for one page. -/
structure PdfPage where
  getLinks : Except String (List PdfAnnot)
  deriving Repr

/-- The outcome of `fitz.open(stream=pdf_bytes, filetype="pdf")`. -/
inductive OpenResult where
  | fail : String → OpenResult
  | ok : List PdfPage → OpenResult
  deriving Repr

/-- The page loop of `extract_links_from_pdf`: `links` is the accumulator
(the mutable `links` list).  A page whose `get_links()` raises aborts the
loop; the exception is caught by the function's `try`/`except`, which falls
through to `return links`, so the links gathered so far are kept. -/
def collectLinks : List PdfPage → List String → List String
  | [], acc => acc
  | p :: ps, acc =>
    match p.getLinks with
    | .error _ => acc
    | .ok annots => collectLinks ps (acc ++ annots.filterMap PdfAnnot.uri)

/-- `extract_links_from_pdf(pdf_bytes)` of `src/extract_lines.py`, as a
function of the document engine's behaviour on those bytes.  The wrapping
`try`/`except` makes it total: every failure path still returns `links`. -/
def extract_links_from_pdf : OpenResult → List String
  | .fail _ => []
  | .ok pages => collectLinks pages []

/-- The URIs a cleanly-enumerating page contributes. -/
def pageUris (p : PdfPage) : List String :=
  match p.getLinks with
  | .ok annots => annots.filterMap PdfAnnot.uri
  | .error _ => []

/-- On a document whose pages all enumerate cleanly up to a page whose
`get_links()` raises, the page loop stops at the failing page and keeps
exactly the URIs of the pages before it. -/
theorem collectLinks_until_error (bad : PdfPage) (rest : List PdfPage)
    (m : String) (hbad : bad.getLinks = .error m) :
    ∀ good, (∀ p ∈ good, ∃ l, p.getLinks = .ok l) →
    ∀ acc, collectLinks (good ++ bad :: rest) acc =
      acc ++ (good.map pageUris).flatten := by
  intro good
  induction good with
  | nil =>
    intro _ acc
    simp [collectLinks, hbad]
  | cons p ps ih =>
    intro hgood acc
    obtain ⟨l, hl⟩ := hgood p (List.mem_cons_self p ps)
    have hrest : ∀ q ∈ ps, ∃ l, q.getLinks = .ok l :=
      fun q hq => hgood q (List.mem_cons_of_mem p hq)
    simp only [List.cons_append, collectLinks, hl]
    rw [List.append_eq, ih hrest]
    simp [pageUris, hl]

/-! ## Pipeline state and nodes (`src/resumeportfolioagent.py`) -/

/-- `class AgentState(TypedDict)` of `src/models.py`.  `pdf_bytes` is the
raw upload; bytes are opaque and only tested for Python truthiness, so they
are carried as `List Nat`. -/
structure AgentState where
  pdf_content : String
  pdf_bytes : Option (List Nat)
  extracted_data : Option Portfolio
  pdf_links : Option (List String)
  error : Option String
  status : String
  deriving Repr

/-- The external collaborators of `ResumePortfolioAgent`:
`textExtract` is `PDFExtractor.extract_text`, `openDoc` is the document
engine used by `extract_links_from_pdf`, and `llm` is the structured
Gemini call (`structured_llm.invoke`), a function of the human-message
content (the system prompt is a fixed constant). -/
structure Oracles where
  textExtract : List Nat → String
  openDoc : List Nat → OpenResult
  llm : String → Except String Portfolio

/-- The Link Extractor's answer for a byte buffer. -/
def linkExtract (o : Oracles) (b : List Nat) : List String :=
  extract_links_from_pdf (o.openDoc b)

/-- `_extract_pdf_node`. -/
def extract_pdf_node (o : Oracles) (s : AgentState) : AgentState :=
  if s.pdf_content = "" then
    { s with status := "error", error := some "No PDF content provided" }
  else
    let links :=
      match s.pdf_bytes with
      | some b => if b.isEmpty then [] else linkExtract o b
      | none => []
    { s with status := "pdf_extracted", pdf_links := some links }

/-- The human-message content built by `_process_with_llm_node`. -/
def llmPrompt (content : String) (links : List String) : String :=
  "Resume content:\n\n" ++ content ++ "\n\nDetected links:\n" ++
    String.intercalate "\n" links

/-- `_process_with_llm_node`. -/
def process_with_llm_node (o : Oracles) (s : AgentState) : AgentState :=
  match o.llm (llmPrompt s.pdf_content (s.pdf_links.getD [])) with
  | .ok result =>
      { s with status := "llm_processed", extracted_data := some result }
  | .error e =>
      { s with status := "error",
               error := some ("LLM processing failed: " ++ e) }

/-- `_validate_output_node`.  `if state.get("pdf_links")` is Python
truthiness: the overwrite happens only when `pdf_links` is a non-`None`,
non-empty list. -/
def validate_output_node (s : AgentState) : AgentState :=
  match s.extracted_data with
  | none => { s with status := "error", error := some "No data extracted" }
  | some d =>
      let d' :=
        match s.pdf_links with
        | some l => if l.isEmpty then d else { d with pdfLinks := some l }
        | none => d
      { s with status := "completed", extracted_data := some d' }

/-- The compiled LangGraph of `_create_graph`: the three nodes joined by
unconditional edges `extract_pdf → process_with_llm → validate_output →
END`, so every node runs exactly once per invocation regardless of the
status recorded by earlier nodes. -/
def graph_invoke (o : Oracles) (s : AgentState) : AgentState :=
  validate_output_node (process_with_llm_node o (extract_pdf_node o s))

/-- The initial state built inside `process_resume`. -/
def initialState (pdf_text : String) (pdf_bytes : List Nat) : AgentState :=
  { pdf_content := pdf_text, pdf_bytes := some pdf_bytes,
    extracted_data := none, pdf_links := none, error := none,
    status := "initialized" }

/-- `process_resume(pdf_bytes)`: the returned `Except` is the
`HTTPException(500, detail)` raised by the final handler (errors carry the
`detail` string); the `Nat` counts invocations of the structured-extraction
model during the call. -/
def process_resume (o : Oracles) (pdf_bytes : List Nat) :
    Except String Portfolio × Nat :=
  let pdf_text := o.textExtract pdf_bytes
  if pdf_text = "" then
    (.error "Resume processing failed: Could not extract text from PDF", 0)
  else
    let final := graph_invoke o (initialState pdf_text pdf_bytes)
    if final.status = "error" then
      (.error ("Resume processing failed: " ++ (final.error.getD "None")), 1)
    else
      match final.extracted_data with
      | none =>
          (.error "Resume processing failed: No data was extracted from the resume", 1)
      | some d => (.ok d, 1)

/-- The link list recorded by the extract stage for a `process_resume`
invocation on `b` (the value `_extract_pdf_node` stores in `pdf_links`). -/
def stageLinks (o : Oracles) (b : List Nat) : List String :=
  if b.isEmpty then [] else linkExtract o b

/-! ## Portfolio generator (`src/portfolio_generator.py`) -/

/-- A raised Python exception: its class name and its message.  Every
`raise` in `portfolio_generator.py` uses a builtin class (`ValueError` in
`__init__`, `Exception` everywhere else); there are no custom exception
classes in the repository. -/
structure PyErr where
  etype : String
  msg : String
  deriving Repr, DecidableEq

/-- The outcome of fully reading one template entry
(`template_zip.read(item.filename)`, or the chunked read `testzip`
performs on the same data):
* `ok` — the read succeeds with these bytes;
* `badZipEntry` — the read raises `BadZipFile` (e.g. a CRC-32 mismatch or
  a bad local header); `testzip` catches this per entry and returns the
  filename (which the caller discards), and the copy loop's read of the
  same entry is caught by the per-entry `except Exception` and skipped;
* `readError` — the read raises a non-`BadZipFile` exception (e.g.
  `zlib.error` on a corrupt deflate stream), which escapes `testzip` and
  the `except BadZipFile` handler, aborting the merge. -/
inductive ReadResult where
  | ok : List Nat → ReadResult
  | badZipEntry : String → ReadResult
  | readError : PyErr → ReadResult
  deriving Repr, DecidableEq

/-- One entry of the downloaded template archive, as `zipfile` reports it:
its filename and the outcome of reading its data. -/
structure ZEntry where
  name : List Char
  contents : ReadResult
  deriving Repr, DecidableEq

/-- `ZipInfo.is_dir()`: CPython evaluates `self.filename[-1] == '/'`,
which raises `IndexError("string index out of range")` on an empty
filename (verified against CPython 3.11). -/
def ZEntry.is_dir (e : ZEntry) : Except PyErr Bool :=
  match e.name.getLast? with
  | none => .error ⟨"IndexError", "string index out of range"⟩
  | some c => .ok (c == '/')

/-- The value `is_dir()` returns when it does not raise: the filename
ends with `'/'` (meaningful only for non-empty filenames). -/
def ZEntry.endsSlash (e : ZEntry) : Bool :=
  match e.name.getLast? with
  | none => false
  | some c => c == '/'

/-- Contents of an entry of the output archive: raw bytes copied from the
template, or the canonical JSON text of a serialized value (the rendering
of `model_dump_json(indent=4)`; the external JSON parser recovers the
rendered value). -/
inductive EntryData where
  | bytes : List Nat → EntryData
  | jsonText : Json → EntryData
  deriving Repr, BEq

/-- An in-memory zip archive: its entries in write order. -/
abbrev Archive : Type := List (List Char × EntryData)

/-- `ZipFile.read(name)` semantics on an archive with duplicate names:
`NameToInfo` is filled in entry order, so the last entry written under a
name shadows the earlier ones. -/
def readEntry (ar : Archive) (nm : List Char) : Option EntryData :=
  (ar.filter (fun e => e.1 = nm)).getLast?.map Prod.snd

/-- What opening the downloaded bytes as `zipfile.ZipFile(..., 'r')` does:
raises `BadZipFile` or yields the entry list. -/
inductive ZipResult where
  | badZip : ZipResult
  | okZip : List ZEntry → ZipResult

/-- The network's behaviour for the one `requests.get` of
`_get_template_zip`: a timeout, a `RequestException` (with the status code
of the attached response, if any — `raise_for_status` funnels non-2xx
responses here), or a 2xx response with its `content-type` header and a
body (carried as its parse `ZipResult`, the only use of the bytes). -/
inductive FetchOutcome where
  | timeout : FetchOutcome
  | reqError : Option Nat → String → FetchOutcome
  | success : String → ZipResult → FetchOutcome

/-- The `error_detail` string built by `_get_template_zip`'s
`RequestException` handler. -/
def fetchErrorDetail (owner repo branch : String) :
    Option Nat → String → String
  | some 403, _ => "Access forbidden. Check your GitHub token permissions."
  | some 404, _ =>
      "Repository or branch not found: " ++ owner ++ "/" ++ repo ++ ":" ++
        branch
  | some 401, _ => "Authentication failed. Check your GitHub token."
  | some n, m => "HTTP " ++ toString n ++ ": " ++ m
  | none, m => "HTTP N/A: " ++ m

/-- `_get_template_zip`.  All of its failure paths raise the builtin
`Exception`; the content-type check's `Exception` is not a
`RequestException`, so it escapes the handler unwrapped. -/
def get_template_zip (owner repo branch : String) (f : FetchOutcome) :
    Except PyErr ZipResult :=
  match f with
  | .timeout => .error ⟨"Exception", "GitHub API request timed out"⟩
  | .reqError status m =>
      .error ⟨"Exception",
        "Could not retrieve portfolio template from GitHub. " ++
          fetchErrorDetail owner repo branch status m⟩
  | .success contentType z =>
      if containsSub "application/zip".data contentType.data ∨
         containsSub "application/octet-stream".data contentType.data then
        .ok z
      else
        .error ⟨"Exception",
          "Expected zip file but got content-type: " ++ contentType⟩

/-- The contribution of one filename to `first_components`:
`parts[0] + '/'` when `len(parts) > 1`, nothing otherwise. -/
def firstComponentOf (nm : List Char) : Option (List Char) :=
  if (splitSlash nm).length > 1 then
    some (((splitSlash nm).headD []) ++ ['/'])
  else none

/-- `ZipFile.testzip()`: reads every entry in list order, catching only
`BadZipFile` per entry — at the first such entry it *returns* that
filename, leaving the remaining entries unread; any other read exception
propagates.  `generate_zip` discards the returned value, and its
`except BadZipFile:` around the call is unreachable (a `BadZipFile` raised
while opening an entry is caught inside `testzip`'s own per-entry `try`),
so only the propagating exception matters. -/
def testzip : List ZEntry → Except PyErr Unit
  | [] => .ok ()
  | e :: es =>
    match e.contents with
    | .ok _ => testzip es
    | .badZipEntry _ => .ok ()
    | .readError er => .error er

/-- The list comprehension of `_find_root_directory`:
`[item.filename for item in zip_file.infolist() if not item.is_dir()]`,
evaluating `is_dir()` on every item in order — it raises at the first
empty-named entry. -/
def nonDirFiles : List ZEntry → Except PyErr (List (List Char))
  | [] => .ok []
  | e :: es =>
    match e.is_dir with
    | .error er => .error er
    | .ok d =>
      match nonDirFiles es with
      | .error er => .error er
      | .ok rest => if d then .ok rest else .ok (e.name :: rest)

/-- `_find_root_directory`: over the non-directory entries, collect
`parts[0] + '/'` for every filename with more than one `'/'`-separated
part, and return the most common one (`Counter(...).most_common(1)`,
i.e. greatest multiplicity, first-seen on ties).  The `is_dir()` calls in
the comprehension can raise `IndexError`, which propagates. -/
def find_root_directory (entries : List ZEntry) :
    Except PyErr (Option (List Char)) :=
  match nonDirFiles entries with
  | .error er => .error er
  | .ok all_files =>
    if all_files.isEmpty then .ok none
    else
      let first_components := all_files.filterMap firstComponentOf
      if first_components.isEmpty then .ok none
      else .ok (firstMaxBy (fun k => first_components.count k)
        first_components)

/-- The collected `first_components` list of `_find_root_directory`
(meaningful when no entry name is empty, i.e. when the comprehension does
not raise). -/
def firstComponents (entries : List ZEntry) : List (List Char) :=
  ((entries.filter (fun e => !e.endsSlash)).map ZEntry.name).filterMap
    firstComponentOf

/-- The root `_find_root_directory` computes when it does not raise. -/
def rootOf (entries : List ZEntry) : Option (List Char) :=
  firstMaxBy (fun k => (firstComponents entries).count k)
    (firstComponents entries)

/-- The output path of one template entry in the copy loop of
`generate_zip`: the root prefix is stripped when present
(`item.filename.replace(root_dir, '', 1)` guarded by `startswith`). -/
def newPath (root : Option (List Char)) (nm : List Char) : List Char :=
  match root with
  | some r => if r.isPrefixOf nm then nm.drop r.length else nm
  | none => nm

/-- The copy loop of `generate_zip`.  `item.is_dir()` is evaluated
*outside* the per-entry `try`, so it raises on an empty filename; within
the `try`, an entry whose read raises (any exception) is skipped with a
warning, and a read entry is written to the output only when its
re-rooted path is non-empty. -/
def copyEntries (root : Option (List Char)) : List ZEntry → Except PyErr Archive
  | [] => .ok []
  | e :: es =>
    match e.is_dir with
    | .error er => .error er
    | .ok d =>
      match copyEntries root es with
      | .error er => .error er
      | .ok rest =>
        if d then .ok rest
        else
          match e.contents with
          | .ok c =>
              let np := newPath root e.name
              if np.isEmpty then .ok rest else .ok ((np, .bytes c) :: rest)
          | _ => .ok rest

/-- `generate_zip(portfolio_data)`: download, open, `testzip()` prescan,
find the root, copy the entries, fail if nothing was copied, then append
`data.json` holding the serialized portfolio; any failure on the way is
wrapped in `Exception("Portfolio generation failed: ...")`. -/
def generate_zip (owner repo branch : String) (f : FetchOutcome)
    (portfolio_data : Portfolio) : Except PyErr Archive :=
  let inner : Except PyErr Archive :=
    match get_template_zip owner repo branch f with
    | .error e => .error e
    | .ok .badZip => .error ⟨"BadZipFile", "File is not a zip file"⟩
    | .ok (.okZip entries) =>
      match testzip entries with
      | .error e => .error e
      | .ok () =>
        match find_root_directory entries with
        | .error e => .error e
        | .ok root_dir =>
          match copyEntries root_dir entries with
          | .error e => .error e
          | .ok copied =>
            if copied.length = 0 then
              .error ⟨"Exception",
                "No files were copied from the template repository"⟩
            else
              .ok (copied ++ [("data.json".data,
                .jsonText portfolio_data.toJson)])
  match inner with
  | .ok ar => .ok ar
  | .error e =>
      .error ⟨"Exception", "Portfolio generation failed: " ++ e.msg⟩

/-! ## `PortfolioGenerator.__init__` repo parsing (`src/portfolio_generator.py`) -/

/-- The constructor prologue of `PortfolioGenerator` up to and including
`self.repo_owner, self.repo_name = github_repo.split('/')` (the subsequent
`_validate_config` network check is outside the parse).  Python's tuple
unpacking of a list of length ≠ 2 raises `ValueError("too many values to
unpack (expected 2)")` for longer lists. -/
def parseGithubRepo (github_repo github_token : String) :
    Except PyErr (String × String) :=
  if github_repo = "" ∨ github_token = "" then
    .error ⟨"ValueError", "GITHUB_REPO and GITHUB_TOKEN are required."⟩
  else if github_repo.data.count '/' = 0 then
    .error ⟨"ValueError",
      "GITHUB_REPO must be in the format 'owner/repo-name'."⟩
  else
    match splitSlash github_repo.data with
    | [owner, repo] => .ok (⟨owner⟩, ⟨repo⟩)
    | _ => .error ⟨"ValueError", "too many values to unpack (expected 2)"⟩

/-- A concrete portfolio record used by the concrete runs below. -/
def examplePortfolio : Portfolio :=
  { name := "Jane Doe", mail := "jane@x.com", resumeLink := "resume.pdf",
    aboutme := "about", workExperience := [], projects := [],
    skillsData := [], socials := [], seoKeywords := ["kw"],
    pdfLinks := none }

/-! ## Behaviour of a full pipeline run -/

/-- A `process_resume` run with non-empty extracted text reduces to the
LLM call's outcome: on success the validate node merges the stage's link
list (only when non-empty) and the run completes; on failure the validate
node — which still executes, the graph edges being unconditional —
replaces the LLM error with `"No data extracted"`. -/
theorem process_resume_run (o : Oracles) (b : List Nat)
    (ht : o.textExtract b ≠ "") :
    process_resume o b =
      match o.llm (llmPrompt (o.textExtract b) (stageLinks o b)) with
      | .ok Q =>
          (.ok (if (stageLinks o b).isEmpty then Q
                else { Q with pdfLinks := some (stageLinks o b) }), 1)
      | .error _ =>
          (.error "Resume processing failed: No data extracted", 1) := by
  unfold process_resume graph_invoke extract_pdf_node process_with_llm_node
    validate_output_node initialState stageLinks linkExtract
  simp only [List.isEmpty_iff, List.isEmpty_eq_true]
  cases hllm : o.llm (llmPrompt (o.textExtract b)
      (if b = [] then [] else extract_links_from_pdf (o.openDoc b))) with
  | ok Q =>
      by_cases hL : (if b = [] then [] else
          extract_links_from_pdf (o.openDoc b)) = []
      · rw [hL] at hllm
        simp [ht, hllm, hL]
      · simp [ht, hllm, hL]
  | error e =>
      simp [ht, hllm]

/-- C1: if the Link Extractor stage produced a non-empty list `L` for the
processed document, the Portfolio returned by `process_resume` has
`pdfLinks = L` exactly, discarding the model's value for that field; if it
produced `[]`, the returned Portfolio is the model's answer unchanged
(`pdfLinks` possibly null). -/
theorem claim_C1_pdfLinks_override (o : Oracles) (b : List Nat)
    (P : Portfolio) (hok : (process_resume o b).1 = .ok P) :
    (stageLinks o b ≠ [] → P.pdfLinks = some (stageLinks o b)) ∧
    (stageLinks o b = [] →
      ∃ Q, o.llm (llmPrompt (o.textExtract b) (stageLinks o b)) = .ok Q ∧
        P = Q) := by
  have ht : o.textExtract b ≠ "" := by
    intro h
    simp [process_resume, h] at hok
  rw [process_resume_run o b ht] at hok
  cases hllm : o.llm (llmPrompt (o.textExtract b) (stageLinks o b)) with
  | ok Q =>
      rw [hllm] at hok
      simp only at hok
      constructor
      · intro hne
        rw [if_neg (by simpa using hne)] at hok
        injection hok with h2
        rw [← h2]
      · intro hnil
        rw [if_pos (by simpa using hnil)] at hok
        injection hok with h2
        exact ⟨Q, rfl, h2.symm⟩
  | error e =>
      rw [hllm] at hok
      simp at hok

/-- Oracle exercising the non-empty-links branch: one page with one URI
annotation, a model that fills `pdfLinks` with its own value. -/
def c1oracle : Oracles :=
  { textExtract := fun _ => "resume text",
    openDoc := fun _ => .ok [⟨.ok [⟨some "https://github.com/jane"⟩]⟩],
    llm := fun _ => .ok { examplePortfolio with
                          pdfLinks := some ["model-made"] } }

theorem claim_C1_witness :
    ({ examplePortfolio with
       pdfLinks := some ["https://github.com/jane"] } : Portfolio).pdfLinks =
      some (stageLinks c1oracle [1]) :=
  (claim_C1_pdfLinks_override c1oracle [1]
      { examplePortfolio with pdfLinks := some ["https://github.com/jane"] }
      rfl).1 (by decide)

/-- C2 is refuted at this run: the Link Extractor produces `[]` (the
document cannot be opened), the model hallucinates a `pdfLinks` value, and
`_validate_output_node`'s truthiness guard (`if state.get("pdf_links")`)
skips the overwrite, so the returned `pdfLinks` is present yet differs
from the Link Extractor's list. -/
def c2oracle : Oracles :=
  { textExtract := fun _ => "resume text",
    openDoc := fun _ => .fail "cannot open document",
    llm := fun _ => .ok { examplePortfolio with
                          pdfLinks := some ["hallucinated"] } }

/-- C2 counterexample: a completed run whose returned `pdfLinks` is
present but is the model's hallucinated list, not the Link Extractor's
(empty) list. -/
theorem claim_C2_counterexample :
    (process_resume c2oracle [1]).1 =
      .ok { examplePortfolio with pdfLinks := some ["hallucinated"] } ∧
    stageLinks c2oracle [1] = [] ∧
    (some ["hallucinated"] : Option (List String)) ≠ some [] :=
  ⟨rfl, rfl, by decide⟩

/-- C2 amended: when `pdfLinks` was overwritten at all — i.e. whenever the
Link Extractor stage produced a non-empty list — the returned `pdfLinks`
equals exactly that list; when the stage produced `[]` the field is
whatever the model generated and may be present and different. -/
theorem claim_C2_amended (o : Oracles) (b : List Nat) (P : Portfolio)
    (hok : (process_resume o b).1 = .ok P)
    (hne : stageLinks o b ≠ []) :
    P.pdfLinks = some (stageLinks o b) := by
  have ht : o.textExtract b ≠ "" := by
    intro h
    simp [process_resume, h] at hok
  rw [process_resume_run o b ht] at hok
  cases hllm : o.llm (llmPrompt (o.textExtract b) (stageLinks o b)) with
  | ok Q =>
      rw [hllm] at hok
      simp only at hok
      rw [if_neg (by simpa using hne)] at hok
      injection hok with h2
      rw [← h2]
  | error e =>
      rw [hllm] at hok
      simp at hok

theorem claim_C2_amended_witness :
    ({ examplePortfolio with
       pdfLinks := some ["https://github.com/jane"] } : Portfolio).pdfLinks =
      some (stageLinks c1oracle [2]) :=
  claim_C2_amended c1oracle [2]
    { examplePortfolio with pdfLinks := some ["https://github.com/jane"] }
    rfl (by decide)

/-- Oracle whose LLM invocation fails. -/
def c3oracle : Oracles :=
  { textExtract := fun _ => "resume text",
    openDoc := fun _ => .fail "cannot open document",
    llm := fun _ => .error "model unavailable" }

/-- C3 counterexample: the LLM stage records status `error` with message
`"LLM processing failed: model unavailable"`, yet the validate stage still
executes (the graph edges are unconditional) and overwrites the error with
its own `"No data extracted"`; the terminal state and the surfaced failure
carry the later stage's message, not the first captured one. -/
theorem claim_C3_counterexample :
    (process_with_llm_node c3oracle
        (extract_pdf_node c3oracle (initialState "resume text" [1]))).status
      = "error" ∧
    (process_with_llm_node c3oracle
        (extract_pdf_node c3oracle (initialState "resume text" [1]))).error
      = some "LLM processing failed: model unavailable" ∧
    (graph_invoke c3oracle (initialState "resume text" [1])).error
      = some "No data extracted" ∧
    (process_resume c3oracle [1]).1
      = .error "Resume processing failed: No data extracted" ∧
    ("No data extracted" : String) ≠
      "LLM processing failed: model unavailable" :=
  ⟨rfl, rfl, rfl, rfl, by decide⟩

/-- C3 amended: once a stage has set status to `error`, subsequent stages
still execute (the compiled graph has only unconditional edges); in
particular after an LLM-stage failure the validate stage overwrites both
the `error` message (with `"No data extracted"`) and keeps status `error`,
so the terminal error descriptor carries the last stage's message, not the
first captured one. -/
theorem claim_C3_amended (o : Oracles) (s : AgentState) (m : String)
    (hllm : o.llm (llmPrompt s.pdf_content (s.pdf_links.getD [])) = .error m)
    (hdata : s.extracted_data = none) :
    (process_with_llm_node o s).status = "error" ∧
    (process_with_llm_node o s).error =
      some ("LLM processing failed: " ++ m) ∧
    (validate_output_node (process_with_llm_node o s)).status = "error" ∧
    (validate_output_node (process_with_llm_node o s)).error =
      some "No data extracted" := by
  simp [process_with_llm_node, hllm, validate_output_node, hdata]

theorem claim_C3_amended_witness :
    (process_with_llm_node c3oracle (initialState "resume text" [1])).status
      = "error" ∧
    (process_with_llm_node c3oracle (initialState "resume text" [1])).error
      = some ("LLM processing failed: " ++ "model unavailable") ∧
    (validate_output_node
        (process_with_llm_node c3oracle
          (initialState "resume text" [1]))).status = "error" ∧
    (validate_output_node
        (process_with_llm_node c3oracle
          (initialState "resume text" [1]))).error =
      some "No data extracted" :=
  claim_C3_amended c3oracle (initialState "resume text" [1])
    "model unavailable" rfl rfl

/-- C8: when text extraction yields the empty string, `process_resume`
fails with the empty-document error (HTTP detail `"Resume processing
failed: Could not extract text from PDF"`) and the structured-extraction
model is never invoked (invocation count 0) — for every model oracle, so
the failure is independent of model availability. -/
theorem claim_C8_empty_document (o : Oracles) (b : List Nat)
    (h : o.textExtract b = "") :
    process_resume o b =
      (.error "Resume processing failed: Could not extract text from PDF",
       0) := by
  simp [process_resume, h]

def c8oracle : Oracles :=
  { textExtract := fun _ => "",
    openDoc := fun _ => .ok [⟨.ok [⟨some "https://github.com/jane"⟩]⟩],
    llm := fun _ => .ok examplePortfolio }

theorem claim_C8_witness :
    process_resume c8oracle [1] =
      (.error "Resume processing failed: Could not extract text from PDF",
       0) :=
  claim_C8_empty_document c8oracle [1] rfl

/-! ## C9 — link extractor failure behaviour -/

/-- A document whose first page enumerates one URI and whose second page's
`get_links()` raises. -/
def c9doc : OpenResult :=
  .ok [⟨.ok [⟨some "https://github.com/jane"⟩]⟩,
       ⟨.error "page parse failure"⟩]

/-- C9 counterexample: a parse failure on the second page does not yield
an empty sequence — the links collected from the first page are returned.
(The function still does not raise: it is total.) -/
theorem claim_C9_counterexample :
    extract_links_from_pdf c9doc = ["https://github.com/jane"] ∧
    (["https://github.com/jane"] : List String) ≠ [] :=
  ⟨rfl, by decide⟩

/-- C9 amended: `extract_links_from_pdf` never raises (it is a total
function of the document-engine outcome); a document that cannot be opened
yields `[]`; and a failure while enumerating a page's links yields exactly
the links collected from the pages before the failing one (possibly
non-empty), the remaining pages being skipped. -/
theorem claim_C9_amended (r : OpenResult) :
    (∀ m, r = .fail m → extract_links_from_pdf r = []) ∧
    (∀ good bad rest m, r = .ok (good ++ bad :: rest) →
      bad.getLinks = .error m →
      (∀ p ∈ good, ∃ l, p.getLinks = .ok l) →
      extract_links_from_pdf r = (good.map pageUris).flatten) := by
  constructor
  · intro m hm
    rw [hm]
    rfl
  · intro good bad rest m hr hbad hgood
    rw [hr]
    show collectLinks (good ++ bad :: rest) [] = (good.map pageUris).flatten
    rw [collectLinks_until_error bad rest m hbad good hgood []]
    simp

theorem claim_C9_amended_witness :
    extract_links_from_pdf (.ok ([⟨.ok [⟨some "https://github.com/jane"⟩]⟩]
        ++ ⟨.error "page parse failure"⟩ :: [])) =
      ([(⟨.ok [⟨some "https://github.com/jane"⟩]⟩ : PdfPage)].map
        pageUris).flatten :=
  (claim_C9_amended (.ok ([⟨.ok [⟨some "https://github.com/jane"⟩]⟩]
      ++ ⟨.error "page parse failure"⟩ :: []))).2
    [⟨.ok [⟨some "https://github.com/jane"⟩]⟩]
    ⟨.error "page parse failure"⟩ [] "page parse failure" rfl rfl
    (by
      intro p hp
      simp at hp
      exact ⟨_, by rw [hp]⟩)

/-! ## C10 — `PortfolioGenerator.__init__` repo parsing -/

/-- C10: with both configuration strings present, the owner/repo parse
succeeds exactly when `github_repo` contains exactly one `'/'`; with no
`'/'` it raises the documented format `ValueError`, and with two or more
`'/'` it raises `ValueError("too many values to unpack (expected 2)")`
from the tuple unpacking of `github_repo.split('/')`. -/
theorem claim_C10_repo_parse (github_repo github_token : String)
    (hr : github_repo ≠ "") (ht : github_token ≠ "") :
    ((∃ pr, parseGithubRepo github_repo github_token = .ok pr) ↔
      github_repo.data.count '/' = 1) ∧
    (github_repo.data.count '/' = 0 →
      parseGithubRepo github_repo github_token =
        .error ⟨"ValueError",
          "GITHUB_REPO must be in the format 'owner/repo-name'."⟩) ∧
    (2 ≤ github_repo.data.count '/' →
      parseGithubRepo github_repo github_token =
        .error ⟨"ValueError", "too many values to unpack (expected 2)"⟩) := by
  have hlen := splitSlash_length github_repo.data
  unfold parseGithubRepo
  rw [if_neg (by simp [hr, ht])]
  by_cases h0 : github_repo.data.count '/' = 0
  · rw [if_pos h0]
    refine ⟨⟨fun ⟨pr, hpr⟩ => by simp at hpr, fun h1 => by omega⟩, fun _ => rfl,
      fun h2 => by omega⟩
  · rw [if_neg h0]
    rcases hsp : splitSlash github_repo.data with _ | ⟨a, _ | ⟨b, _ | ⟨c, t⟩⟩⟩
    · exact absurd hsp (splitSlash_ne_nil _)
    · rw [hsp] at hlen
      simp at hlen
      exact absurd (by omega) h0
    · rw [hsp] at hlen
      simp at hlen
      exact ⟨⟨fun _ => by omega, fun _ => ⟨(⟨a⟩, ⟨b⟩), rfl⟩⟩,
        fun hh => absurd hh h0, fun hh => by omega⟩
    · rw [hsp] at hlen
      simp at hlen
      exact ⟨⟨fun ⟨pr, hpr⟩ => by simp at hpr, fun hh => by omega⟩,
        fun hh => absurd hh h0, fun _ => rfl⟩

theorem claim_C10_witness :
    ((∃ pr, parseGithubRepo "owner/repo" "token" = .ok pr) ↔
      ("owner/repo" : String).data.count '/' = 1) ∧
    (("owner/repo" : String).data.count '/' = 0 →
      parseGithubRepo "owner/repo" "token" =
        .error ⟨"ValueError",
          "GITHUB_REPO must be in the format 'owner/repo-name'."⟩) ∧
    (2 ≤ ("owner/repo" : String).data.count '/' →
      parseGithubRepo "owner/repo" "token" =
        .error ⟨"ValueError", "too many values to unpack (expected 2)"⟩) :=
  claim_C10_repo_parse "owner/repo" "token" (by decide) (by decide)

/-! ## C5 — common-root detection -/

/-- `is_dir()` on a non-empty filename returns whether it ends in `'/'`. -/
theorem is_dir_ok (e : ZEntry) (h : e.name ≠ []) :
    e.is_dir = .ok e.endsSlash := by
  unfold ZEntry.is_dir ZEntry.endsSlash
  cases hg : e.name.getLast? with
  | none => exact absurd (List.getLast?_eq_none_iff.mp hg) h
  | some c => rfl

/-- The only exception `is_dir()` raises is the `IndexError` on an empty
filename. -/
theorem is_dir_error (e : ZEntry) (er : PyErr) (h : e.is_dir = .error er) :
    er = ⟨"IndexError", "string index out of range"⟩ ∧ e.name = [] := by
  unfold ZEntry.is_dir at h
  cases hg : e.name.getLast? with
  | none =>
    rw [hg] at h
    injection h with h2
    exact ⟨h2.symm, List.getLast?_eq_none_iff.mp hg⟩
  | some c => rw [hg] at h; simp at h

/-- The filename comprehension raises the `IndexError` as soon as the
archive contains an empty-named entry. -/
theorem nonDirFiles_error (entries : List ZEntry)
    (h : ∃ e ∈ entries, e.name = []) :
    nonDirFiles entries =
      .error ⟨"IndexError", "string index out of range"⟩ := by
  induction entries with
  | nil => simp at h
  | cons e es ih =>
    rcases h with ⟨x, hx, hxname⟩
    rcases List.mem_cons.mp hx with rfl | hx2
    · unfold nonDirFiles ZEntry.is_dir
      rw [hxname]
      rfl
    · unfold nonDirFiles
      rw [ih ⟨_, hx2, hxname⟩]
      cases hd : e.is_dir with
      | error er => rw [(is_dir_error e er hd).1]
      | ok d => rfl

/-- On an archive with no empty-named entry, the comprehension returns
the names of the non-directory entries. -/
theorem nonDirFiles_ok (entries : List ZEntry)
    (hnames : ∀ e ∈ entries, e.name ≠ []) :
    nonDirFiles entries =
      .ok ((entries.filter (fun e => !e.endsSlash)).map ZEntry.name) := by
  induction entries with
  | nil => rfl
  | cons e es ih =>
    have hrest := ih (fun x hx => hnames x (List.mem_cons_of_mem e hx))
    unfold nonDirFiles
    rw [is_dir_ok e (hnames e (List.mem_cons_self e es)), hrest]
    cases hd : e.endsSlash <;> simp [List.filter_cons, hd]

/-- `_find_root_directory` raises the `IndexError` exactly as the real
code does when the archive has an empty-named entry. -/
theorem find_root_raise (entries : List ZEntry)
    (h : ∃ e ∈ entries, e.name = []) :
    find_root_directory entries =
      .error ⟨"IndexError", "string index out of range"⟩ := by
  unfold find_root_directory
  rw [nonDirFiles_error entries h]

/-- Reduction of `_find_root_directory` once the filename comprehension
is known to return. -/
theorem find_root_directory_ok_files (entries : List ZEntry)
    (files : List (List Char)) (h : nonDirFiles entries = .ok files) :
    find_root_directory entries =
      (if files.isEmpty then .ok none
       else if (files.filterMap firstComponentOf).isEmpty then .ok none
       else .ok (firstMaxBy
         (fun k => (files.filterMap firstComponentOf).count k)
         (files.filterMap firstComponentOf))) := by
  unfold find_root_directory
  rw [h]

/-- On archives with no empty-named entry, `_find_root_directory` returns
the first-seen-max selection over the collected component list (the two
emptiness guards collapse into `firstMaxBy`'s behaviour on `[]`). -/
theorem find_root_eq (entries : List ZEntry)
    (hnames : ∀ e ∈ entries, e.name ≠ []) :
    find_root_directory entries = .ok (rootOf entries) := by
  rw [find_root_directory_ok_files entries _ (nonDirFiles_ok entries hnames)]
  by_cases h1 :
      ((entries.filter (fun e => !e.endsSlash)).map ZEntry.name).isEmpty
  · rw [if_pos h1]
    have hfc : firstComponents entries = [] := by
      unfold firstComponents
      rw [List.isEmpty_iff.mp h1]
      rfl
    unfold rootOf
    rw [hfc]
    rfl
  · rw [if_neg h1]
    by_cases h2 : (((entries.filter (fun e => !e.endsSlash)).map
        ZEntry.name).filterMap firstComponentOf).isEmpty
    · rw [if_pos h2]
      have hfc : firstComponents entries = [] := List.isEmpty_iff.mp h2
      unfold rootOf
      rw [hfc]
      rfl
    · rw [if_neg h2]
      rfl

/-- An archive containing an empty-named entry, on which the claim
predicts the root `a/` (the only collected component). -/
def c5badentries : List ZEntry :=
  [⟨"a/x".data, .ok [1]⟩, ⟨[], .ok [7]⟩]

/-- C5 counterexample: on an archive with an empty-named entry,
`_find_root_directory` does not return the most frequent first component
(here `a/`) — `is_dir()` raises `IndexError("string index out of range")`
inside the comprehension and the computation aborts. -/
theorem claim_C5_counterexample :
    find_root_directory c5badentries =
      .error ⟨"IndexError", "string index out of range"⟩ ∧
    find_root_directory c5badentries ≠ .ok (some "a/".data) :=
  ⟨rfl, fun h => nomatch h⟩

/-- C5 amended: on an archive containing an empty-named entry the
computation raises `IndexError("string index out of range")` instead of
returning; on every other archive the original characterization holds:
only non-directory entries are considered (filtering them away first
changes nothing), no root is returned exactly when no non-directory
entry's filename splits into more than one path component, and any
returned root is a collected first component of maximal multiplicity with
only strictly less frequent components seen before it (first-seen
tie-breaking). -/
theorem claim_C5_amended (entries : List ZEntry) :
    ((∃ e ∈ entries, e.name = []) →
      find_root_directory entries =
        .error ⟨"IndexError", "string index out of range"⟩) ∧
    ((∀ e ∈ entries, e.name ≠ []) →
      (find_root_directory entries = .ok none ↔
        ∀ e ∈ entries, e.endsSlash = false →
          (splitSlash e.name).length ≤ 1) ∧
      (find_root_directory entries =
        find_root_directory (entries.filter (fun e => !e.endsSlash))) ∧
      (∀ r, find_root_directory entries = .ok (some r) →
        r ∈ firstComponents entries ∧
        (∀ y ∈ firstComponents entries,
          (firstComponents entries).count y ≤
            (firstComponents entries).count r) ∧
        (∃ pre post, firstComponents entries = pre ++ r :: post ∧
          ∀ y ∈ pre,
            (firstComponents entries).count y <
              (firstComponents entries).count r))) := by
  refine ⟨find_root_raise entries, fun hnames => ⟨?_, ?_, ?_⟩⟩
  · rw [find_root_eq entries hnames]
    rw [show (Except.ok (rootOf entries) =
        (.ok none : Except PyErr (Option (List Char)))) ↔
        rootOf entries = none from by
      constructor
      · intro h; injection h
      · intro h; rw [h]]
    unfold rootOf
    rw [firstMaxBy_eq_none]
    unfold firstComponents
    rw [List.filterMap_eq_nil_iff]
    constructor
    · intro h e he hd
      have hmem : e.name ∈ (entries.filter (fun e => !e.endsSlash)).map
          ZEntry.name :=
        List.mem_map_of_mem _ (List.mem_filter.mpr ⟨he, by simp [hd]⟩)
      have hnone := h e.name hmem
      unfold firstComponentOf at hnone
      by_cases hp : (splitSlash e.name).length > 1
      · rw [if_pos hp] at hnone
        simp at hnone
      · omega
    · intro h nm hnm
      rcases List.mem_map.mp hnm with ⟨e, hef, hname⟩
      rcases List.mem_filter.mp hef with ⟨he, hd⟩
      have hle := h e he (by simpa using hd)
      unfold firstComponentOf
      rw [hname] at hle
      rw [if_neg (by omega)]
  · have hnf : ∀ e ∈ entries.filter (fun e => !e.endsSlash), e.name ≠ [] :=
      fun e he => hnames e (List.mem_filter.mp he).1
    rw [find_root_eq entries hnames,
      find_root_eq (entries.filter (fun e => !e.endsSlash)) hnf]
    have h3 : (entries.filter (fun e => !e.endsSlash)).filter
        (fun e => !e.endsSlash) = entries.filter (fun e => !e.endsSlash) := by
      rw [List.filter_filter]
      congr 1
      funext e
      cases e.endsSlash <;> rfl
    unfold rootOf firstComponents
    rw [h3]
  · intro r hr
    rw [find_root_eq entries hnames] at hr
    injection hr with hr2
    exact ⟨firstMaxBy_mem _ _ r hr2, firstMaxBy_maximal _ _ r hr2,
      firstMaxBy_first_seen _ _ r hr2⟩

/-- A two-entry archive whose first components tie (`b/` then `a/`):
the heuristic picks the first-seen `b/`. -/
def c5entries : List ZEntry :=
  [⟨"b/1".data, .ok [1]⟩, ⟨"a/1".data, .ok [1]⟩]

theorem claim_C5_witness :
    "b/".data ∈ firstComponents c5entries ∧
    (∀ y ∈ firstComponents c5entries,
      (firstComponents c5entries).count y ≤
        (firstComponents c5entries).count "b/".data) ∧
    (∃ pre post, firstComponents c5entries = pre ++ "b/".data :: post ∧
      ∀ y ∈ pre,
        (firstComponents c5entries).count y <
          (firstComponents c5entries).count "b/".data) :=
  ((claim_C5_amended c5entries).2 (by decide)).2.2 "b/".data rfl

/-! ## C4 / C6 / C7 — archive merge -/

/-- Any root the non-raising computation selects is a first component
plus a trailing slash. -/
theorem rootOf_shape (entries : List ZEntry) (r : List Char)
    (h : rootOf entries = some r) : ∃ hd, r = hd ++ ['/'] := by
  unfold rootOf at h
  have hmem := firstMaxBy_mem _ _ r h
  unfold firstComponents at hmem
  rcases List.mem_filterMap.mp hmem with ⟨nm, hnm, hf⟩
  unfold firstComponentOf at hf
  by_cases hp : (splitSlash nm).length > 1
  · rw [if_pos hp] at hf
    injection hf with h2
    exact ⟨_, h2.symm⟩
  · rw [if_neg hp] at hf
    simp at hf

/-- A non-directory entry with a non-empty name keeps a non-empty path
after root-stripping: a root ends in `'/'`, a non-directory name does
not, so the name is never the bare root. -/
theorem newPath_ne_nil (root : Option (List Char)) (nm : List Char)
    (hshape : ∀ r, root = some r → ∃ hd, r = hd ++ ['/'])
    (hnm : nm ≠ []) (hdir : nm.getLast? ≠ some '/') :
    newPath root nm ≠ [] := by
  unfold newPath
  cases root with
  | none => exact hnm
  | some r =>
    show (if r.isPrefixOf nm = true then List.drop r.length nm else nm) ≠ []
    by_cases hp : r.isPrefixOf nm
    · rw [if_pos hp]
      obtain ⟨hd, rfl⟩ := hshape r rfl
      have hpre : (hd ++ ['/']) <+: nm := by
        rw [← List.isPrefixOf_iff_prefix]
        exact hp
      obtain ⟨t, ht⟩ := hpre
      cases t with
      | nil =>
        exfalso
        apply hdir
        rw [← ht]
        simp
      | cons a t2 =>
        rw [← ht, List.drop_left]
        simp
    · rw [if_neg hp]
      exact hnm

/-- The archive the copy loop produces when none of its `is_dir()` calls
raises. -/
def copyList (root : Option (List Char)) (entries : List ZEntry) : Archive :=
  entries.filterMap (fun e =>
    if e.endsSlash then none
    else
      match e.contents with
      | .ok c =>
          let np := newPath root e.name
          if np.isEmpty then none else some (np, .bytes c)
      | _ => none)

/-- On archives with no empty-named entry the copy loop does not raise
and produces `copyList`. -/
theorem copyEntries_ok (root : Option (List Char)) (entries : List ZEntry)
    (hnames : ∀ e ∈ entries, e.name ≠ []) :
    copyEntries root entries = .ok (copyList root entries) := by
  induction entries with
  | nil => rfl
  | cons e es ih =>
    have hrest := ih (fun x hx => hnames x (List.mem_cons_of_mem e hx))
    unfold copyEntries
    rw [is_dir_ok e (hnames e (List.mem_cons_self e es)), hrest]
    cases hd : e.endsSlash with
    | true => simp [copyList, List.filterMap_cons, hd]
    | false =>
      cases hc : e.contents with
      | ok c =>
        by_cases hnp : newPath root e.name = [] <;>
          simp [copyList, List.filterMap_cons, hd, hc, hnp]
      | badZipEntry m => simp [copyList, List.filterMap_cons, hd, hc]
      | readError er => simp [copyList, List.filterMap_cons, hd, hc]

/-- A readable, non-directory, non-empty-path entry is copied to the
output under its re-rooted path. -/
theorem mem_copyList (root : Option (List Char)) (entries : List ZEntry)
    (e : ZEntry) (c : List Nat) (he : e ∈ entries)
    (hd : e.endsSlash = false) (hc : e.contents = .ok c)
    (hn : newPath root e.name ≠ []) :
    (newPath root e.name, EntryData.bytes c) ∈ copyList root entries := by
  unfold copyList
  apply List.mem_filterMap.mpr
  refine ⟨e, he, ?_⟩
  simp [hd, hc, List.isEmpty_iff, hn]

/-- If every entry is a directory or unreadable, the copy loop writes
nothing. -/
theorem copyList_eq_nil (root : Option (List Char)) (entries : List ZEntry)
    (h : ∀ e ∈ entries, e.endsSlash = true ∨ ∀ c, e.contents ≠ .ok c) :
    copyList root entries = [] := by
  unfold copyList
  rw [List.filterMap_eq_nil_iff]
  intro e he
  rcases h e he with hd | hc
  · simp [hd]
  · cases hd : e.endsSlash with
    | true => simp [hd]
    | false =>
      cases hcc : e.contents with
      | ok c => exact absurd hcc (hc c)
      | badZipEntry m => simp [hd, hcc]
      | readError er => simp [hd, hcc]

/-- C4: whenever the merge succeeds, the output archive's `data.json`
entry (the last-written entry under that name, which shadows any template
entry at the same path) holds the serialized portfolio, and deserializing
that serialization yields a record equal to the input portfolio. -/
theorem claim_C4_datajson_roundtrip (owner repo branch : String)
    (f : FetchOutcome) (p : Portfolio) (out : Archive)
    (hok : generate_zip owner repo branch f p = .ok out) :
    readEntry out "data.json".data = some (.jsonText p.toJson) ∧
    Portfolio.fromJson p.toJson = some p := by
  refine ⟨?_, portfolio_roundtrip p⟩
  simp only [generate_zip] at hok
  cases hg : get_template_zip owner repo branch f with
  | error e => simp [hg] at hok
  | ok z =>
    cases z with
    | badZip => simp [hg] at hok
    | okZip entries =>
      cases htz : testzip entries with
      | error e => simp [hg, htz] at hok
      | ok u =>
        cases u
        cases hfr : find_root_directory entries with
        | error e => simp [hg, htz, hfr] at hok
        | ok root_dir =>
          cases hcp : copyEntries root_dir entries with
          | error e => simp [hg, htz, hfr, hcp] at hok
          | ok copied =>
            by_cases hc : copied.length = 0
            · simp [hg, htz, hfr, hcp, hc] at hok
            · simp only [hg, htz, hfr, hcp, if_neg hc] at hok
              injection hok with h2
              rw [← h2]
              unfold readEntry
              rw [List.filter_append]
              simp [List.getLast?_concat]

def c4fetch : FetchOutcome :=
  .success "application/zip"
    (.okZip [⟨"root/index.html".data, .ok [1, 2]⟩])

theorem claim_C4_witness :
    readEntry [("index.html".data, EntryData.bytes [1, 2]),
               ("data.json".data, EntryData.jsonText examplePortfolio.toJson)]
        "data.json".data = some (.jsonText examplePortfolio.toJson) ∧
    Portfolio.fromJson examplePortfolio.toJson = some examplePortfolio :=
  claim_C4_datajson_roundtrip "o" "r" "b" c4fetch examplePortfolio
    [("index.html".data, EntryData.bytes [1, 2]),
     ("data.json".data, EntryData.jsonText examplePortfolio.toJson)] rfl

/-- C6 counterexample, two parts.  First: a template with two readable
non-directory entries (N = 2), one of them empty-named — the merge aborts
in `_find_root_directory`'s `is_dir()` with the wrapped `IndexError`, not
with the no-files (EmptyTemplateError) failure, refuting both "succeeds
whenever N ≥ 1" and "fails exactly when N = 0".  Second: one valid entry
(N = 1) alongside one zlib-corrupt entry — `testzip()`'s full read raises
`zlib.error`, which escapes the `except BadZipFile` handler and aborts
the merge, refuting "a corrupt entry alongside N valid entries still
succeeds". -/
theorem claim_C6_counterexample :
    generate_zip "o" "r" "b"
        (.success "application/zip" (.okZip c5badentries))
        examplePortfolio =
      .error ⟨"Exception",
        "Portfolio generation failed: string index out of range"⟩ ∧
    generate_zip "o" "r" "b"
        (.success "application/zip"
          (.okZip [⟨"a/x".data, .ok [1]⟩,
                   ⟨"a/bad.bin".data, .readError ⟨"error",
                     "Error -3 while decompressing data: invalid code lengths set"⟩⟩]))
        examplePortfolio =
      .error ⟨"Exception",
        "Portfolio generation failed: Error -3 while decompressing data: invalid code lengths set"⟩ :=
  ⟨rfl, rfl⟩

/-- C6 amended: entries must survive classification and the `testzip()`
prescan — an empty-named entry aborts the merge with the wrapped
`IndexError`, and an entry whose read raises a non-`BadZipFile` error
aborts it during the prescan (unless the prescan returned early at an
earlier `BadZipFile` entry).  For a downloaded-and-opened template all of
whose entries have non-empty names and whose prescan passes, the merge
succeeds iff at least one non-directory entry's read succeeds; the output
then includes every readable non-directory entry under its re-rooted path
plus `data.json` (entries whose read raises `BadZipFile` are skipped
per-entry); otherwise it fails with the wrapped no-files error. -/
theorem claim_C6_amended (owner repo branch : String) (f : FetchOutcome)
    (entries : List ZEntry) (p : Portfolio)
    (hf : get_template_zip owner repo branch f = .ok (.okZip entries))
    (hnames : ∀ e ∈ entries, e.name ≠ [])
    (htest : testzip entries = .ok ()) :
    ((∃ e ∈ entries, e.endsSlash = false ∧ ∃ c, e.contents = .ok c) →
      ∃ out, generate_zip owner repo branch f p = .ok out ∧
        (∀ e2 ∈ entries, e2.endsSlash = false → ∀ c, e2.contents = .ok c →
          (newPath (rootOf entries) e2.name, EntryData.bytes c) ∈ out) ∧
        ("data.json".data, EntryData.jsonText p.toJson) ∈ out) ∧
    ((∀ e ∈ entries, e.endsSlash = true ∨ ∀ c, e.contents ≠ .ok c) →
      generate_zip owner repo branch f p =
        .error ⟨"Exception",
          "Portfolio generation failed: No files were copied from the template repository"⟩) := by
  have hshape : ∀ r, rootOf entries = some r → ∃ hd, r = hd ++ ['/'] :=
    fun r hr => rootOf_shape entries r hr
  constructor
  · rintro ⟨e, he, hdir, c, hc⟩
    have hdirn : e.name.getLast? ≠ some '/' := by
      intro hg
      unfold ZEntry.endsSlash at hdir
      rw [hg] at hdir
      simp at hdir
    have hnp := newPath_ne_nil (rootOf entries) e.name hshape
      (hnames e he) hdirn
    have hmem := mem_copyList (rootOf entries) entries e c he hdir hc hnp
    have hlen : (copyList (rootOf entries) entries).length ≠ 0 := by
      intro h0
      rw [List.length_eq_zero] at h0
      rw [h0] at hmem
      simp at hmem
    refine ⟨copyList (rootOf entries) entries ++
      [("data.json".data, EntryData.jsonText p.toJson)], ?_, ?_, ?_⟩
    · simp only [generate_zip, hf, htest, find_root_eq entries hnames,
        copyEntries_ok (rootOf entries) entries hnames]
      rw [if_neg hlen]
    · intro e2 he2 hdir2 c2 hc2
      have hdirn2 : e2.name.getLast? ≠ some '/' := by
        intro hg
        unfold ZEntry.endsSlash at hdir2
        rw [hg] at hdir2
        simp at hdir2
      exact List.mem_append_left _
        (mem_copyList (rootOf entries) entries e2 c2 he2 hdir2 hc2
          (newPath_ne_nil (rootOf entries) e2.name hshape
            (hnames e2 he2) hdirn2))
    · exact List.mem_append_right _ (by simp)
  · intro hall
    have hnil := copyList_eq_nil (rootOf entries) entries hall
    simp only [generate_zip, hf, htest, find_root_eq entries hnames,
      copyEntries_ok (rootOf entries) entries hnames, hnil]
    rfl

def c6entries : List ZEntry := [⟨"root/index.html".data, .ok [1, 2]⟩]

theorem claim_C6_amended_witness :
    ∃ out, generate_zip "o" "r" "b"
        (.success "application/zip" (.okZip c6entries)) examplePortfolio =
        .ok out ∧
      (∀ e2 ∈ c6entries, e2.endsSlash = false → ∀ c, e2.contents = .ok c →
        (newPath (rootOf c6entries) e2.name, EntryData.bytes c) ∈ out) ∧
      ("data.json".data, EntryData.jsonText examplePortfolio.toJson) ∈ out :=
  (claim_C6_amended "o" "r" "b"
      (.success "application/zip" (.okZip c6entries)) c6entries
      examplePortfolio rfl (by decide) rfl).1
    ⟨⟨"root/index.html".data, .ok [1, 2]⟩, by decide, by decide, [1, 2], rfl⟩

/-- C7 counterexample: a 404 on the template download and a
successfully-downloaded-but-empty template both surface as the builtin
generic `Exception` — there is no distinct `TemplateFetchError` type, and
the two failure kinds share the same exception type, distinguishable only
by message text. -/
theorem claim_C7_counterexample :
    generate_zip "owner" "repo" "main" (.reqError (some 404) "Not Found")
        examplePortfolio =
      .error ⟨"Exception",
        "Portfolio generation failed: Could not retrieve portfolio template from GitHub. Repository or branch not found: owner/repo:main"⟩ ∧
    generate_zip "owner" "repo" "main"
        (.success "application/zip" (.okZip [])) examplePortfolio =
      .error ⟨"Exception",
        "Portfolio generation failed: No files were copied from the template repository"⟩ :=
  ⟨rfl, rfl⟩

/-- C7 amended: every template-download failure (timeout, connection
error, or non-2xx status) makes the merge fail with the builtin generic
`Exception`, whose message is `"Portfolio generation failed: "` followed
by the download-specific detail — failure kinds are distinguishable by
message text only, not by a dedicated error type. -/
theorem claim_C7_amended (owner repo branch : String) (p : Portfolio)
    (f : FetchOutcome) (hfail : ∀ ct z, f ≠ .success ct z) :
    ∃ d, get_template_zip owner repo branch f = .error ⟨"Exception", d⟩ ∧
      generate_zip owner repo branch f p =
        .error ⟨"Exception", "Portfolio generation failed: " ++ d⟩ := by
  cases f with
  | timeout => exact ⟨_, rfl, rfl⟩
  | reqError s m => exact ⟨_, rfl, rfl⟩
  | success ct z => exact absurd rfl (hfail ct z)

theorem claim_C7_amended_witness :
    ∃ d, get_template_zip "owner" "repo" "main" .timeout =
        .error ⟨"Exception", d⟩ ∧
      generate_zip "owner" "repo" "main" .timeout examplePortfolio =
        .error ⟨"Exception", "Portfolio generation failed: " ++ d⟩ :=
  claim_C7_amended "owner" "repo" "main" examplePortfolio .timeout
    (fun ct z h => by simp at h)

end CVGeany
